import Mathlib

/-!
Shallow embedding of the uThread real-time messaging / notification core:
session registry, conversation store, message log, delivery routing and
push-channel fallback, transcribed from the JavaScript source
(`server/socket/socketHandler.js`, `server/models/Conversation.js`,
the messages router, the push-notification service and the push router).
-/

namespace UThread

/-- User identities are the string form of database keys. -/
abbrev UserId := String

/-! ### Association-map helpers

Mongoose `Map` fields (`unreadCount`, `isPinned`, `isMuted`) and the
in-memory `connectedUsers` / `typingUsers` JavaScript `Map`s are modelled
as association lists with at most one binding per key. -/

/-- `m.get(k)` on a JS/Mongoose map: the value bound to `k`, if any. -/
def mget {α : Type} (m : List (String × α)) (k : String) : Option α :=
  (m.find? (fun p => p.1 = k)).map Prod.snd

/-- `m.set(k, v)`: replace the binding for `k`, or append a fresh one. -/
def mset {α : Type} (m : List (String × α)) (k : String) (v : α) :
    List (String × α) :=
  match m with
  | [] => [(k, v)]
  | (k', v') :: rest =>
      if k' = k then (k, v) :: rest else (k', v') :: mset rest k v

/-- `m.delete(k)`: remove the binding for `k` (no-op when absent). -/
def mdel {α : Type} (m : List (String × α)) (k : String) :
    List (String × α) :=
  match m with
  | [] => []
  | (k', v') :: rest =>
      if k' = k then rest else (k', v') :: mdel rest k

/-- `m.has(k)` on a JS `Map`. -/
def mhas {α : Type} (m : List (String × α)) (k : String) : Bool :=
  (m.find? (fun p => p.1 = k)).isSome

/-- JS `x || 0` applied to a possibly-absent numeric map value:
`undefined` and `0` are falsy, every other number is returned as is. -/
def jsOrZero (o : Option Int) : Int :=
  match o with
  | some v => if v = 0 then 0 else v
  | none => 0

/-- JS `x || false` applied to a possibly-absent boolean map value. -/
def jsOrFalse (o : Option Bool) : Bool :=
  match o with
  | some v => v
  | none => false

/-! ### Data model -/

/-- Media attachment kinds (`MessageSchema.media.type` enum). -/
inductive MediaKind
  | image
  | video
  | audio
deriving DecidableEq, Repr

/-- One media attachment on a message. -/
structure Media where
  kind : MediaKind
  url : String
  caption : String
deriving DecidableEq, Repr

/-- A persisted direct message (`MessageSchema`). -/
structure Message where
  id : Nat
  senderId : UserId
  receiverId : UserId
  content : String
  media : List Media
  isRead : Bool
  createdAt : Nat
deriving DecidableEq, Repr

/-- A persisted conversation aggregate (`ConversationSchema`): one per
participant pair, with per-participant unread / pinned / muted maps. -/
structure Conversation where
  id : Nat
  participants : List UserId
  lastMessage : Option Nat
  lastMessageText : String
  lastMessageDate : Nat
  unreadCount : List (UserId × Int)
  isPinned : List (UserId × Bool)
  isMuted : List (UserId × Bool)
  createdAt : Nat
  updatedAt : Nat
deriving DecidableEq, Repr

/-- `ConversationSchema.methods.incrementUnread`: read the counter with
`get(...) || 0`, write back `current + 1` (no save). -/
def Conversation.incrementUnread (c : Conversation) (userId : UserId) :
    Conversation :=
  let current := jsOrZero (mget c.unreadCount userId)
  { c with unreadCount := mset c.unreadCount userId (current + 1) }

/-- `ConversationSchema.methods.resetUnread`: set the counter to 0 (no save). -/
def Conversation.resetUnread (c : Conversation) (userId : UserId) :
    Conversation :=
  { c with unreadCount := mset c.unreadCount userId 0 }

/-- `ConversationSchema.methods.togglePinned`: flip the caller's pinned flag,
reading with `get(...) || false` (no save). -/
def Conversation.togglePinned (c : Conversation) (userId : UserId) :
    Conversation :=
  let current := jsOrFalse (mget c.isPinned userId)
  { c with isPinned := mset c.isPinned userId (!current) }

/-- `ConversationSchema.methods.toggleMuted`: flip the caller's muted flag
(no save). -/
def Conversation.toggleMuted (c : Conversation) (userId : UserId) :
    Conversation :=
  let current := jsOrFalse (mget c.isMuted userId)
  { c with isMuted := mset c.isMuted userId (!current) }

/-- A persisted web-push subscription row (`PushSubscriptionSchema`):
unique on the compound key (user, subscription.endpoint). -/
structure PushSubscription where
  id : Nat
  user : UserId
  endpoint : String
  payload : String
deriving DecidableEq, Repr

/-- A social-action notification (`NotificationSchema`), as consumed by the
push channel. -/
structure Notification where
  id : Nat
  recipient : UserId
  sender : UserId
  kind : String
  post : Option String
  message : String
  read : Bool
deriving DecidableEq, Repr

/-- The persisted store backing the messaging core. -/
structure DB where
  messages : List Message
  conversations : List Conversation
  subscriptions : List PushSubscription
  notifications : List Notification
  nextMessageId : Nat
  nextConversationId : Nat
  nextSubscriptionId : Nat
  nextNotificationId : Nat
deriving Repr

/-! ### Observable events and operation traces -/

/-- Outbound socket emissions and push-channel calls, as observable events.
`newMessage` carries whether the payload was sender-profile-resolved. -/
inductive Event
  | newMessage (dest : UserId) (messageId : Nat) (resolved : Bool)
  | conversationUpdate (dest : UserId) (conversationId : Nat)
  | messageSent (dest : UserId) (messageId : Nat)
  | messageError (dest : UserId) (error : String)
  | messagesRead (dest : UserId) (conversationId : Nat) (readBy : UserId)
  | messageRead (dest : UserId) (messageId : Nat) (conversationId : Nat)
      (readBy : UserId)
  | readConfirmed (dest : UserId) (messageId : Option Nat)
      (conversationId : Option Nat)
  | userStatus (userId : UserId) (online : Bool)
  | userTyping (dest : UserId) (senderId : UserId) (isTyping : Bool)
  | authSuccess (dest : UserId)
  | notification (dest : UserId) (notificationId : Nat)
  | unreadCount (dest : UserId) (count : Int)
  | pushInvocation (userId : UserId) (body : String)
  | pushAttempt (subscriptionId : Nat) (userId : UserId) (body : String)
deriving DecidableEq, Repr

/-- One step of an operation: a durable write or an observable emission. -/
inductive Step
  | persistMessage (id : Nat)
  | persistConversation (id : Nat)
  | emit (e : Event)
deriving DecidableEq, Repr

/-- Whether a step is a durable persistence write. -/
def Step.isPersist : Step → Bool
  | .persistMessage _ => true
  | .persistConversation _ => true
  | .emit _ => false

/-- Whether a step is an emission / delivery attempt. -/
def Step.isEmit : Step → Bool
  | .emit _ => true
  | _ => false

/-! ### Message-send path (`socketHandler.js`)

`send_message` socket handler and the `sendDirectMessage` method of the
socket-handler API object. -/

/-- JS truthiness test `(!content || content.trim() === '')` on the optional
text part of a send request. -/
def contentBlank (content : Option String) : Bool :=
  match content with
  | none => true
  | some s => s = "" || s.trim = ""

/-- JS test `(!media || media.length === 0)`. -/
def mediaAbsent (media : Option (List Media)) : Bool :=
  match media with
  | none => true
  | some l => l.isEmpty

/-- JS `media && media.length > 0`. -/
def mediaPresent (media : Option (List Media)) : Bool :=
  match media with
  | none => false
  | some l => !l.isEmpty

/-- `content || (media && media.length > 0 ? 'Sent media' : '')` — the
denormalized last-message text written on the conversation. -/
def lastMsgText (content : Option String) (media : Option (List Media)) :
    String :=
  match content with
  | some s => if s ≠ "" then s else (if mediaPresent media then "Sent media" else "")
  | none => if mediaPresent media then "Sent media" else ""

/-- `Conversation.findOne({ participants: { $all: [a, b] } })`: the first
stored conversation whose participant list holds both users. -/
def findConversation (db : DB) (a b : UserId) : Option Conversation :=
  db.conversations.find?
    (fun c => decide (a ∈ c.participants) && decide (b ∈ c.participants))

/-- Replace the stored row for an existing conversation (a mongoose
`document.save()` on a fetched document). -/
def storeConversation (db : DB) (c : Conversation) : DB :=
  { db with conversations := db.conversations.map (fun c' => if c'.id = c.id then c else c') }

/-- Result of a send operation: the updated store, the ordered step trace,
and the id of the saved message (`none` on validation failure). -/
structure SendOutcome where
  db : DB
  trace : List Step
  saved : Option Nat
deriving Repr

/-- The body of the `send_message` socket handler: validate, persist the
message, find-or-create and update the conversation, live-push to the
receiver when connected, then acknowledge to the sender. `connectedUsers`
is the session registry; `now` stands for `Date.now()`. -/
def sendMessageHandler (db : DB) (connectedUsers : List (UserId × Nat))
    (userId : UserId) (receiverId : Option UserId) (content : Option String)
    (media : Option (List Media)) (now : Nat) : SendOutcome :=
  match receiverId with
  | none =>
      { db := db
        trace := [.emit (.messageError userId "Recipient not specified")]
        saved := none }
  | some rid =>
      if contentBlank content && mediaAbsent media then
        { db := db
          trace := [.emit (.messageError userId "Message cannot be empty")]
          saved := none }
      else
        let mid := db.nextMessageId
        let newMessage : Message :=
          { id := mid, senderId := userId, receiverId := rid
            content := content.getD "", media := media.getD []
            isRead := false, createdAt := now }
        let db₁ : DB :=
          { db with messages := db.messages ++ [newMessage]
                    nextMessageId := mid + 1 }
        let found := findConversation db userId rid
        let conv : Conversation :=
          match found with
          | none =>
              { id := db₁.nextConversationId
                participants := [userId, rid]
                lastMessage := some mid
                lastMessageText := lastMsgText content media
                lastMessageDate := now
                unreadCount := [(rid, 1)]
                isPinned := []
                isMuted := []
                createdAt := now
                updatedAt := now }
          | some c =>
              let c := { c with lastMessage := some mid
                                lastMessageText := lastMsgText content media
                                lastMessageDate := now }
              let currentCount := jsOrZero (mget c.unreadCount rid)
              { c with unreadCount := mset c.unreadCount rid (currentCount + 1)
                       updatedAt := now }
        let db₂ : DB :=
          match found with
          | none =>
              { db₁ with conversations := db₁.conversations ++ [conv]
                         nextConversationId := db₁.nextConversationId + 1 }
          | some _ => storeConversation db₁ conv
        let liveSteps : List Step :=
          if mhas connectedUsers rid then
            [.emit (.newMessage rid mid true),
             .emit (.conversationUpdate rid conv.id)]
          else []
        { db := db₂
          trace := [.persistMessage mid, .persistConversation conv.id]
                     ++ liveSteps
                     ++ [.emit (.messageSent userId mid),
                         .emit (.conversationUpdate userId conv.id)]
          saved := some mid }

/-- `sendDirectMessage(senderId, receiverId, messageData)` on the
socket-handler API object: same persistence as the socket handler but no
input validation, no sender acknowledgement emits, and the saved message is
returned to the HTTP caller. -/
def sendDirectMessage (db : DB) (connectedUsers : List (UserId × Nat))
    (senderId receiverId : UserId) (content : Option String)
    (media : Option (List Media)) (now : Nat) : SendOutcome :=
  let mid := db.nextMessageId
  let newMessage : Message :=
    { id := mid, senderId := senderId, receiverId := receiverId
      content := content.getD "", media := media.getD []
      isRead := false, createdAt := now }
  let db₁ : DB :=
    { db with messages := db.messages ++ [newMessage]
              nextMessageId := mid + 1 }
  let found := findConversation db senderId receiverId
  let conv : Conversation :=
    match found with
    | none =>
        { id := db₁.nextConversationId
          participants := [senderId, receiverId]
          lastMessage := some mid
          lastMessageText := lastMsgText content media
          lastMessageDate := now
          unreadCount := [(receiverId, 1)]
          isPinned := []
          isMuted := []
          createdAt := now
          updatedAt := now }
    | some c =>
        let c := { c with lastMessage := some mid
                          lastMessageText := lastMsgText content media
                          lastMessageDate := now }
        let currentCount := jsOrZero (mget c.unreadCount receiverId)
        { c with unreadCount := mset c.unreadCount receiverId (currentCount + 1)
                 updatedAt := now }
  let db₂ : DB :=
    match found with
    | none =>
        { db₁ with conversations := db₁.conversations ++ [conv]
                   nextConversationId := db₁.nextConversationId + 1 }
    | some _ => storeConversation db₁ conv
  let liveSteps : List Step :=
    if mhas connectedUsers receiverId then
      [.emit (.newMessage receiverId mid true),
       .emit (.conversationUpdate receiverId conv.id)]
    else []
  { db := db₂
    trace := [.persistMessage mid, .persistConversation conv.id] ++ liveSteps
    saved := some mid }

/-! ### Read-mark paths

The `mark_read` socket handler and the two HTTP read routes
(`PUT /api/messages/:id/read` and `PUT /api/messages/conversations/:id/read`). -/

/-- `connectedUsers.has(userId)` as exposed by `isUserOnline`. -/
def isUserOnline (connectedUsers : List (UserId × Nat)) (userId : UserId) :
    Bool :=
  mhas connectedUsers userId

/-- `Message.findByIdAndUpdate(messageId, { isRead: true })`. -/
def markMessageReadById (db : DB) (messageId : Nat) : DB :=
  { db with messages := db.messages.map fun m =>
              if m.id = messageId then { m with isRead := true } else m }

/-- The body of the `mark_read` socket handler: flip the given message's
read flag, zero the caller's unread entry on the given conversation, notify
the other participant when online, confirm to the caller. The handler
performs no check that the caller is the message's receiver or a
participant of the conversation. -/
def markReadHandler (db : DB) (connectedUsers : List (UserId × Nat))
    (userId : UserId) (messageId : Option Nat) (conversationId : Option Nat)
    (now : Nat) : DB × List Step :=
  let db₁ :=
    match messageId with
    | some m => markMessageReadById db m
    | none => db
  let (db₂, convSteps) : DB × List Step :=
    match conversationId with
    | some cid =>
        match db₁.conversations.find? (fun c => c.id = cid) with
        | some conversation =>
            let conversation' :=
              { conversation with
                  unreadCount := mset conversation.unreadCount userId 0
                  updatedAt := now }
            let db' := storeConversation db₁ conversation'
            let otherParticipantId :=
              conversation.participants.find? (fun p => p ≠ userId)
            let steps :=
              match otherParticipantId with
              | some other =>
                  if mhas connectedUsers other then
                    [Step.persistConversation cid,
                     Step.emit (.messagesRead other cid userId)]
                  else [Step.persistConversation cid]
              | none => [Step.persistConversation cid]
            (db', steps)
        | none => (db₁, [])
    | none => (db₁, [])
  (db₂, convSteps ++ [.emit (.readConfirmed userId messageId conversationId)])

/-- Outcome of an HTTP route: status code, updated store, emitted steps. -/
structure RouteOutcome where
  status : Nat
  db : DB
  trace : List Step
deriving Repr

/-- `PUT /api/messages/:id/read`: 404 when the message is unknown, 403 when
the caller is not the receiver, otherwise flip the flag, reset the caller's
unread counter on the pair's conversation and notify the sender if online. -/
def putMessageRead (db : DB) (connectedUsers : List (UserId × Nat))
    (userId : UserId) (messageId : Nat) (now : Nat) : RouteOutcome :=
  match db.messages.find? (fun m => m.id = messageId) with
  | none => { status := 404, db := db, trace := [] }
  | some message =>
      if message.receiverId ≠ userId then
        { status := 403, db := db, trace := [] }
      else
        let db₁ := markMessageReadById db messageId
        match findConversation db₁ message.senderId message.receiverId with
        | none => { status := 200, db := db₁, trace := [.persistMessage messageId] }
        | some conversation =>
            let conversation' :=
              { (conversation.resetUnread userId) with updatedAt := now }
            let db₂ := storeConversation db₁ conversation'
            let notify :=
              if isUserOnline connectedUsers message.senderId then
                [Step.emit (.messageRead message.senderId messageId
                  conversation.id userId)]
              else []
            { status := 200, db := db₂
              trace := [.persistMessage messageId,
                        .persistConversation conversation.id] ++ notify }

/-- `PUT /api/messages/conversations/:id/read`: 404 when the conversation is
unknown, 403 when the caller is not a participant, otherwise mark all
messages from the other participant read, reset the caller's unread counter
and notify the other participant if online. -/
def putConversationRead (db : DB) (connectedUsers : List (UserId × Nat))
    (userId : UserId) (conversationId : Nat) (now : Nat) : RouteOutcome :=
  match db.conversations.find? (fun c => c.id = conversationId) with
  | none => { status := 404, db := db, trace := [] }
  | some conversation =>
      if ¬ conversation.participants.contains userId then
        { status := 403, db := db, trace := [] }
      else
        let otherParticipantId :=
          conversation.participants.find? (fun p => p ≠ userId)
        let db₁ :=
          { db with messages := db.messages.map (fun m =>
              if otherParticipantId = some m.senderId && m.receiverId = userId
                  && !m.isRead then
                { m with isRead := true }
              else m) }
        let conversation' :=
          { (conversation.resetUnread userId) with updatedAt := now }
        let db₂ := storeConversation db₁ conversation'
        let notify :=
          match otherParticipantId with
          | some other =>
              if isUserOnline connectedUsers other then
                [Step.emit (.messagesRead other conversationId userId)]
              else []
          | none => []
        { status := 200, db := db₂
          trace := [.persistConversation conversationId] ++ notify }

/-! ### Pin / mute toggle routes -/

/-- `PUT /api/messages/conversations/:id/pin`: 404 / 403 checks, then
`togglePinned` for the caller and save; responds with the caller's new
pinned flag. The returned `Bool` mirrors the `isPinned` response field. -/
def putConversationPin (db : DB) (userId : UserId) (conversationId : Nat)
    (now : Nat) : RouteOutcome × Bool :=
  match db.conversations.find? (fun c => c.id = conversationId) with
  | none => ({ status := 404, db := db, trace := [] }, false)
  | some conversation =>
      if ¬ conversation.participants.contains userId then
        ({ status := 403, db := db, trace := [] }, false)
      else
        let conversation' :=
          { (conversation.togglePinned userId) with updatedAt := now }
        let db₁ := storeConversation db conversation'
        ({ status := 200, db := db₁
           trace := [.persistConversation conversationId] },
         jsOrFalse (mget conversation'.isPinned userId))

/-- `PUT /api/messages/conversations/:id/mute`: symmetric to the pin route. -/
def putConversationMute (db : DB) (userId : UserId) (conversationId : Nat)
    (now : Nat) : RouteOutcome × Bool :=
  match db.conversations.find? (fun c => c.id = conversationId) with
  | none => ({ status := 404, db := db, trace := [] }, false)
  | some conversation =>
      if ¬ conversation.participants.contains userId then
        ({ status := 403, db := db, trace := [] }, false)
      else
        let conversation' :=
          { (conversation.toggleMuted userId) with updatedAt := now }
        let db₁ := storeConversation db conversation'
        ({ status := 200, db := db₁
           trace := [.persistConversation conversationId] },
         jsOrFalse (mget conversation'.isMuted userId))

/-! ### Participant-scoped conversation view

The per-requester projection computed by the list route
(`GET /api/messages/conversations`) and the single-conversation route
(`GET /api/messages/conversations/:id`). -/

/-- The rendered conversation: the document's fields spread into the
response, plus the four requester-scoped computed fields. -/
structure ConversationView where
  id : Nat
  participants : List UserId
  lastMessage : Option Nat
  lastMessageText : String
  lastMessageDate : Nat
  createdAt : Nat
  updatedAt : Nat
  otherParticipant : Option UserId
  unreadCount : Int
  isPinned : Bool
  isMuted : Bool
deriving DecidableEq, Repr

/-- The list route's per-conversation mapper (`conversations.map(...)`):
find the other participant, read the requester's three map entries with
`get(...) || default`, and spread onto the document fields. -/
def listConversationView (conversation : Conversation) (requester : UserId) :
    ConversationView :=
  let otherParticipant :=
    conversation.participants.find? (fun p => p ≠ requester)
  let unreadCount := jsOrZero (mget conversation.unreadCount requester)
  let isPinned := jsOrFalse (mget conversation.isPinned requester)
  let isMuted := jsOrFalse (mget conversation.isMuted requester)
  { id := conversation.id
    participants := conversation.participants
    lastMessage := conversation.lastMessage
    lastMessageText := conversation.lastMessageText
    lastMessageDate := conversation.lastMessageDate
    createdAt := conversation.createdAt
    updatedAt := conversation.updatedAt
    otherParticipant := otherParticipant
    unreadCount := unreadCount
    isPinned := isPinned
    isMuted := isMuted }

/-- The single-conversation route's response object (`result = { ... }`),
built inline from the fetched document. -/
def singleConversationView (conversation : Conversation) (requester : UserId) :
    ConversationView :=
  { id := conversation.id
    participants := conversation.participants
    lastMessage := conversation.lastMessage
    lastMessageText := conversation.lastMessageText
    lastMessageDate := conversation.lastMessageDate
    createdAt := conversation.createdAt
    updatedAt := conversation.updatedAt
    otherParticipant :=
      conversation.participants.find? (fun p => p ≠ requester)
    unreadCount := jsOrZero (mget conversation.unreadCount requester)
    isPinned := jsOrFalse (mget conversation.isPinned requester)
    isMuted := jsOrFalse (mget conversation.isMuted requester)
  }

/-- Modelled from the spec's contract for the view projection (§4.3):
`{ ...conversation fields, otherParticipant,
unreadCount: map.get(requester) ?? 0, isPinned: map.get(requester) ?? false,
isMuted: map.get(requester) ?? false }`. -/
def specConversationView (conversation : Conversation) (requester : UserId) :
    ConversationView :=
  { id := conversation.id
    participants := conversation.participants
    lastMessage := conversation.lastMessage
    lastMessageText := conversation.lastMessageText
    lastMessageDate := conversation.lastMessageDate
    createdAt := conversation.createdAt
    updatedAt := conversation.updatedAt
    otherParticipant :=
      conversation.participants.find? (fun p => p ≠ requester)
    unreadCount := (mget conversation.unreadCount requester).getD 0
    isPinned := (mget conversation.isPinned requester).getD false
    isMuted := (mget conversation.isMuted requester).getD false
  }

/-! ### Paginated message-history fetch (`GET /api/messages/:conversationId`) -/

/-- Insert into a list already sorted by `createdAt` descending. -/
def insertByCreatedDesc (m : Message) : List Message → List Message
  | [] => [m]
  | m' :: rest =>
      if m'.createdAt ≤ m.createdAt then m :: m' :: rest
      else m' :: insertByCreatedDesc m rest

/-- `sort({ createdAt: -1 })`: newest first. -/
def sortByCreatedDesc (l : List Message) : List Message :=
  l.foldr insertByCreatedDesc []

/-- Whether a message belongs to the requester/other-participant pair
(the `$or` filter of the history query). -/
def messageBetween (userId : UserId) (otherParticipantId : Option UserId)
    (m : Message) : Bool :=
  match otherParticipantId with
  | some other =>
      (m.senderId = userId && m.receiverId = other) ||
      (m.senderId = other && m.receiverId = userId)
  | none => false

/-- The page served by the history fetch: the pair's messages sorted newest
first, then `skip((page-1)*limit).limit(limit)`. -/
def fetchPage (db : DB) (conversation : Conversation) (userId : UserId)
    (page limit : Nat) : List Message :=
  let otherParticipantId :=
    conversation.participants.find? (fun p => p ≠ userId)
  let matching := db.messages.filter (messageBetween userId otherParticipantId)
  ((sortByCreatedDesc matching).drop ((page - 1) * limit)).take limit

/-- The on-page messages that are unread and addressed to the requester. -/
def unreadOnPage (db : DB) (conversation : Conversation) (userId : UserId)
    (page limit : Nat) : List Message :=
  (fetchPage db conversation userId page limit).filter
    (fun m => !m.isRead && m.receiverId = userId)

/-- Response of the history fetch: status, updated store, events, the
returned page (oldest first) and the pagination block. -/
structure FetchOutcome where
  status : Nat
  db : DB
  trace : List Step
  page : List Message
  total : Nat
  pages : Nat
  hasMore : Bool
deriving Repr

/-- `GET /api/messages/:conversationId`: authorize, page through the pair's
messages newest-first, flip the read flag of the unread on-page messages
addressed to the requester, and — when any such message exists — reset the
requester's conversation unread counter to zero and notify the sender when
online. `page` and `limit` are the query values after the `|| 1` / `|| 20`
defaults. -/
def getMessagesHandler (db : DB) (connectedUsers : List (UserId × Nat))
    (userId : UserId) (conversationId : Nat) (page limit : Nat) (now : Nat) :
    FetchOutcome :=
  let skip := (page - 1) * limit
  match db.conversations.find? (fun c => c.id = conversationId) with
  | none => { status := 404, db := db, trace := [], page := []
              total := 0, pages := 0, hasMore := false }
  | some conversation =>
      if ¬ conversation.participants.contains userId then
        { status := 403, db := db, trace := [], page := []
          total := 0, pages := 0, hasMore := false }
      else
        let otherParticipantId :=
          conversation.participants.find? (fun p => p ≠ userId)
        let matching :=
          db.messages.filter (messageBetween userId otherParticipantId)
        let total := matching.length
        let messages := fetchPage db conversation userId page limit
        let unreadMessages := unreadOnPage db conversation userId page limit
        let (db', steps) : DB × List Step :=
          if unreadMessages.isEmpty then (db, [])
          else
            let unreadIds := unreadMessages.map Message.id
            let db₁ :=
              { db with messages := db.messages.map fun m =>
                          if unreadIds.contains m.id then
                            { m with isRead := true }
                          else m }
            let conversation' :=
              { (conversation.resetUnread userId) with updatedAt := now }
            let db₂ := storeConversation db₁ conversation'
            let senderId :=
              match unreadMessages with
              | m :: _ => m.senderId
              | [] => userId
            let notify :=
              if isUserOnline connectedUsers senderId then
                [Step.emit (.messagesRead senderId conversationId userId)]
              else []
            (db₂, [Step.persistConversation conversationId] ++ notify)
        { status := 200, db := db', trace := steps
          page := messages.reverse
          total := total
          pages := (total + limit - 1) / limit
          hasMore := decide (skip + messages.length < total) }

/-! ### Push channel (`pushNotificationService` and the push router) -/

/-- `saveSubscription(userId, subscription)`: find the row for
(user, endpoint); update its payload when present, insert a fresh row
otherwise (an upsert on the compound key). -/
def saveSubscription (db : DB) (userId : UserId) (endpoint payload : String) :
    DB :=
  match db.subscriptions.find?
      (fun s => s.user = userId && s.endpoint = endpoint) with
  | some existing =>
      { db with subscriptions := db.subscriptions.map fun s =>
                  if s.id = existing.id then { s with payload := payload }
                  else s }
  | none =>
      { db with
          subscriptions := db.subscriptions ++
            [{ id := db.nextSubscriptionId, user := userId
               endpoint := endpoint, payload := payload }]
          nextSubscriptionId := db.nextSubscriptionId + 1 }

/-- `deleteOne` on a list: remove the first row matching the predicate. -/
def deleteFirst (p : PushSubscription → Bool) :
    List PushSubscription → List PushSubscription
  | [] => []
  | s :: rest => if p s then rest else s :: deleteFirst p rest

/-- `deleteSubscription(userId, endpoint)`: `deleteOne` on the compound key;
returns whether a row was removed (`deletedCount > 0`). -/
def deleteSubscription (db : DB) (userId : UserId) (endpoint : String) :
    DB × Bool :=
  let removed :=
    db.subscriptions.any (fun s => s.user = userId && s.endpoint = endpoint)
  let remaining :=
    deleteFirst (fun s => s.user = userId && s.endpoint = endpoint)
      db.subscriptions
  ({ db with subscriptions := remaining }, removed)

/-- `DELETE /api/push/unsubscribe`: 400 without an endpoint, 200 on a
removed row, 404 (\"Subscription not found\") when nothing matched. -/
def deleteUnsubscribeRoute (db : DB) (userId : UserId)
    (endpoint : Option String) : RouteOutcome :=
  match endpoint with
  | none => { status := 400, db := db, trace := [] }
  | some ep =>
      let (db', removed) := deleteSubscription db userId ep
      if removed then { status := 200, db := db', trace := [] }
      else { status := 404, db := db', trace := [] }

/-- `POST /api/push/subscribe`: 400 on a missing descriptor/endpoint,
otherwise upsert and return 200. -/
def postSubscribeRoute (db : DB) (userId : UserId)
    (endpoint : Option String) (payload : String) : RouteOutcome :=
  match endpoint with
  | none => { status := 400, db := db, trace := [] }
  | some ep =>
      { status := 200, db := saveSubscription db userId ep payload
        trace := [] }

/-- Outcome of one `webpush.sendNotification` attempt: resolution, or
rejection with the provider's status code (`error.statusCode`). -/
inductive PushOutcome
  | ok
  | err (statusCode : Nat)
deriving DecidableEq, Repr

/-- `sendPushNotification(userId, notification)`: fan out to every
subscription row of the user; an attempt rejecting with status 404 or 410
deletes that row, any other rejection is logged and mapped to `null`; the
function resolves with the non-null results regardless of attempt failures.
`outcome` gives each subscription's delivery result by row id. -/
def sendPushNotification (db : DB) (userId : UserId) (notif : Notification)
    (outcome : Nat → PushOutcome) : DB × List Step × List Nat :=
  let subscriptions := db.subscriptions.filter (fun s => s.user = userId)
  if subscriptions.isEmpty then (db, [], [])
  else
    let body := notif.message
    let attempts :=
      subscriptions.map (fun s => Step.emit (.pushAttempt s.id userId body))
    let pruned := fun (s : PushSubscription) =>
      s.user = userId &&
        (outcome s.id = PushOutcome.err 404 || outcome s.id = PushOutcome.err 410)
    let db' :=
      { db with subscriptions := db.subscriptions.filter (fun s => !pruned s) }
    let results :=
      (subscriptions.filter (fun s => outcome s.id = PushOutcome.ok)).map
        PushSubscription.id
    (db', [Step.emit (.pushInvocation userId body)] ++ attempts, results)

/-- `createNotification(data)` of the notification service: suppress
self-notification, persist the notification, then deliver live (socket
`notification` + `unread_count`) when the recipient is online, otherwise
through the push channel. Returns the created notification's id, `none`
when suppressed; a total function — push-attempt failures never surface. -/
def createNotification (db : DB) (connectedUsers : List (UserId × Nat))
    (recipient sender : UserId) (kind : String) (post : Option String)
    (message : String) (outcome : Nat → PushOutcome) :
    DB × List Step × Option Nat :=
  if sender = recipient then (db, [], none)
  else
    let nid := db.nextNotificationId
    let notif : Notification :=
      { id := nid, recipient := recipient, sender := sender, kind := kind
        post := post, message := message, read := false }
    let db₁ :=
      { db with notifications := db.notifications ++ [notif]
                nextNotificationId := nid + 1 }
    let unread :=
      (db₁.notifications.filter
        (fun n => n.recipient = recipient && !n.read)).length
    if isUserOnline connectedUsers recipient then
      (db₁,
       [Step.emit (.notification recipient nid),
        Step.emit (.unreadCount recipient (unread : Int))],
       some nid)
    else
      let (db₂, pushSteps, _) := sendPushNotification db₁ recipient notif outcome
      (db₂, pushSteps, some nid)

/-! ### Session registry and connection lifecycle -/

/-- Process-local real-time state: the `connectedUsers` registry (one slot
per user id), the transient `typingUsers` map, and the set of physically
open sockets (to state what a disconnect of one socket does while another
stays open). -/
structure SocketWorld where
  connectedUsers : List (UserId × Nat)
  typingUsers : List (String × Nat)
  liveSockets : List Nat
deriving Repr

/-- The `connection` handler: record (or overwrite) the user's slot with
the new socket, broadcast `online`, confirm authentication. -/
def onConnection (w : SocketWorld) (userId : UserId) (socketId : Nat) :
    SocketWorld × List Step :=
  ({ w with connectedUsers := mset w.connectedUsers userId socketId
            liveSockets := w.liveSockets ++ [socketId] },
   [.emit (.userStatus userId true), .emit (.authSuccess userId)])

/-- The `disconnect` handler registered by a connection for `userId`:
unconditionally delete the user's registry slot (whatever socket the slot
currently holds), clear the user's typing indicators, broadcast `offline`.
`socketId` is the physical socket that closed. -/
def onDisconnect (w : SocketWorld) (userId : UserId) (socketId : Nat) :
    SocketWorld × List Step :=
  ({ w with connectedUsers := mdel w.connectedUsers userId
            typingUsers :=
              w.typingUsers.filter (fun p => !p.1.startsWith (userId ++ "-"))
            liveSockets := w.liveSockets.erase socketId },
   [.emit (.userStatus userId false)])

/-! ### Trace observations -/

/-- The socket a targeted emission is addressed to (`io.to("user:...")` or
`socket.emit`); `none` for the unscoped `user_status` broadcast and for
push-channel calls. -/
def Event.socketDest : Event → Option UserId
  | .newMessage d _ _ => some d
  | .conversationUpdate d _ => some d
  | .messageSent d _ => some d
  | .messageError d _ => some d
  | .messagesRead d _ _ => some d
  | .messageRead d _ _ _ => some d
  | .readConfirmed d _ _ => some d
  | .userStatus _ _ => none
  | .userTyping d _ _ => some d
  | .authSuccess d => some d
  | .notification d _ => some d
  | .unreadCount d _ => some d
  | .pushInvocation _ _ => none
  | .pushAttempt _ _ _ => none

/-- Number of live socket emissions addressed to `u` in a trace. -/
def emitsTo (trace : List Step) (u : UserId) : Nat :=
  (trace.filter (fun s =>
    match s with
    | .emit e => e.socketDest = some u
    | _ => false)).length

/-- Number of push-channel invocations (`sendPushNotification` calls) in a
trace. -/
def countPushInvocations (trace : List Step) : Nat :=
  (trace.filter (fun s =>
    match s with
    | .emit (.pushInvocation _ _) => true
    | _ => false)).length

/-- The receiver's unread counter on the pair's conversation, read the way
the send path reads it (`get(...) || 0`; 0 when no conversation exists). -/
def pairUnread (db : DB) (a b : UserId) : Int :=
  match findConversation db a b with
  | some c => jsOrZero (mget c.unreadCount b)
  | none => 0

/-- Number of stored subscription rows for a (user, endpoint) pair. -/
def subCount (db : DB) (u : UserId) (ep : String) : Nat :=
  (db.subscriptions.filter (fun s => s.user = u && s.endpoint = ep)).length

/-! ### Concrete fixtures (used to instantiate the general theorems) -/

/-- An empty store. -/
def emptyDB : DB :=
  { messages := [], conversations := [], subscriptions := []
    notifications := [], nextMessageId := 0, nextConversationId := 0
    nextSubscriptionId := 0, nextNotificationId := 0 }

/-- An image attachment. -/
def mediaFix : Media := { kind := .image, url := "/m/1.png", caption := "" }

/-- An older unread message from u2 to u1. -/
def msgA : Message :=
  { id := 0, senderId := "u2", receiverId := "u1", content := "old"
    media := [], isRead := false, createdAt := 1 }

/-- A newer unread message from u2 to u1. -/
def msgB : Message :=
  { id := 1, senderId := "u2", receiverId := "u1", content := "new"
    media := [], isRead := false, createdAt := 2 }

/-- The u1/u2 conversation holding the two fixture messages. -/
def convFix : Conversation :=
  { id := 5, participants := ["u1", "u2"], lastMessage := some 1
    lastMessageText := "new", lastMessageDate := 2
    unreadCount := [("u1", 2)], isPinned := [("u1", true)], isMuted := []
    createdAt := 0, updatedAt := 2 }

/-- Store with the two messages and their conversation. -/
def dbFix : DB :=
  { emptyDB with messages := [msgA, msgB], conversations := [convFix]
                 nextMessageId := 2, nextConversationId := 6 }

/-- A push subscription row for u2. -/
def subFix : PushSubscription :=
  { id := 0, user := "u2", endpoint := "https://push.example/ep1"
    payload := "keys" }

/-- Store holding only u2's push subscription. -/
def dbPush : DB :=
  { emptyDB with subscriptions := [subFix], nextSubscriptionId := 1 }

/-- A like notification for u2. -/
def notifFix : Notification :=
  { id := 0, recipient := "u2", sender := "u1", kind := "like"
    post := some "p1", message := "liked your post", read := false }

/-! ## Lemmas -/

theorem jsOrZero_eq_getD (o : Option Int) : jsOrZero o = o.getD 0 := by
  cases o with
  | none => rfl
  | some v =>
      simp only [jsOrZero, Option.getD_some]
      split <;> simp_all

theorem jsOrFalse_eq_getD (o : Option Bool) : jsOrFalse o = o.getD false := by
  cases o <;> rfl

theorem mget_mset_self {α : Type} (m : List (String × α)) (k : String) (v : α) :
    mget (mset m k v) k = some v := by
  induction m with
  | nil => simp [mget, mset]
  | cons hd tl ih =>
      obtain ⟨k', v'⟩ := hd
      by_cases h : k' = k
      · simp [mget, mset, h]
      · simpa [mget, mset, h, List.find?] using ih

theorem mget_mset_ne {α : Type} (m : List (String × α)) (k k' : String)
    (v : α) (h : k ≠ k') : mget (mset m k v) k' = mget m k' := by
  induction m with
  | nil => simp [mget, mset, h]
  | cons hd tl ih =>
      obtain ⟨k₀, v₀⟩ := hd
      by_cases h₀ : k₀ = k
      · subst h₀
        simp [mget, mset, List.find?, h, Ne.symm h]
      · by_cases h₁ : k₀ = k'
        · subst h₁
          simp [mget, mset, h₀, List.find?]
        · simp only [mset, if_neg h₀]
          simpa [mget, List.find?, h₁] using ih

theorem find?_append_of_none {α : Type} (l l' : List α) (p : α → Bool)
    (h : l.find? p = none) : (l ++ l').find? p = l'.find? p := by
  induction l with
  | nil => simp
  | cons hd tl ih =>
      cases hp : p hd with
      | true => simp [List.find?_cons, hp] at h
      | false =>
          simp only [List.find?_cons, hp] at h
          simp only [List.cons_append, List.find?_cons, hp]
          exact ih h

/-- `find?` after a replace-by-id map: when the original `find?` hit `c`
and the replacement `c'` keeps `c`'s id and still satisfies the predicate,
the mapped list's `find?` yields `c'`. -/
theorem find?_map_replace (l : List Conversation) (p : Conversation → Bool)
    (c c' : Conversation) (hfind : l.find? p = some c)
    (hid : c'.id = c.id) (hp : p c' = true) :
    (l.map (fun x => if x.id = c.id then c' else x)).find? p = some c' := by
  induction l with
  | nil => simp at hfind
  | cons hd tl ih =>
      rw [List.find?_cons] at hfind
      cases hph : p hd with
      | true =>
          simp only [hph] at hfind
          injection hfind with h₁
          subst h₁
          by_cases hh : hd.id = hd.id
          · simp [hh, List.find?_cons, hp]
          · exact absurd rfl hh
      | false =>
          simp only [hph] at hfind
          by_cases hh : hd.id = c.id
          · simp [hh, List.find?_cons, hp]
          · simp only [List.map_cons, if_neg hh, List.find?_cons, hph]
            exact ih hfind

theorem deleteFirst_of_not_any (p : PushSubscription → Bool)
    (l : List PushSubscription) (h : l.any p = false) :
    deleteFirst p l = l := by
  induction l with
  | nil => rfl
  | cons hd tl ih =>
      simp only [List.any_cons, Bool.or_eq_false_iff] at h
      simp [deleteFirst, h.1, ih h.2]

theorem filter_deleteFirst_length (p : PushSubscription → Bool)
    (l : List PushSubscription) (h : l.any p = true) :
    ((deleteFirst p l).filter p).length + 1 = (l.filter p).length := by
  induction l with
  | nil => simp at h
  | cons hd tl ih =>
      by_cases hp : p hd
      · simp [deleteFirst, hp]
      · simp only [List.any_cons, hp, Bool.false_or] at h
        simp [deleteFirst, hp, List.filter_cons, ih h]

theorem filter_eq_self_of_none {α : Type} (l : List α) (p : α → Bool)
    (h : ∀ x ∈ l, p x = true) : l.filter p = l :=
  List.filter_eq_self.mpr h

/-! ## Claim theorems -/

/-- C8: the participant-scoped conversation view is the pure transform
`{ ...conversation fields, otherParticipant, unreadCount: get ?? 0,
isPinned: get ?? false, isMuted: get ?? false }`, and the list-query
rendering and the single-conversation-fetch rendering compute the same
function of (conversation, requester). -/
theorem conversation_view_paths_agree (c : Conversation) (u : UserId) :
    listConversationView c u = singleConversationView c u ∧
    listConversationView c u = specConversationView c u := by
  constructor
  · rfl
  · simp [listConversationView, specConversationView, jsOrZero_eq_getD,
      jsOrFalse_eq_getD]

/-- C7: pin and mute toggles are participant-scoped: toggling as `a` flips
exactly `a`'s entry of the corresponding map, leaves every other key's
entry alone, leaves the other maps (unread counter included) untouched,
and leaves participant `b`'s whole rendered view unchanged. -/
theorem toggle_participant_scoped (c : Conversation) (a b : UserId)
    (hab : a ≠ b) :
    listConversationView (c.togglePinned a) b = listConversationView c b ∧
    listConversationView (c.toggleMuted a) b = listConversationView c b ∧
    mget (c.togglePinned a).isPinned a
      = some (!(jsOrFalse (mget c.isPinned a))) ∧
    mget (c.toggleMuted a).isMuted a
      = some (!(jsOrFalse (mget c.isMuted a))) ∧
    (∀ k, a ≠ k → mget (c.togglePinned a).isPinned k = mget c.isPinned k) ∧
    (∀ k, a ≠ k → mget (c.toggleMuted a).isMuted k = mget c.isMuted k) ∧
    (c.togglePinned a).unreadCount = c.unreadCount ∧
    (c.togglePinned a).isMuted = c.isMuted ∧
    (c.toggleMuted a).unreadCount = c.unreadCount ∧
    (c.toggleMuted a).isPinned = c.isPinned := by
  refine ⟨?_, ?_, mget_mset_self _ _ _, mget_mset_self _ _ _,
    fun k hk => mget_mset_ne _ _ _ _ hk,
    fun k hk => mget_mset_ne _ _ _ _ hk, rfl, rfl, rfl, rfl⟩
  · simp [listConversationView, Conversation.togglePinned,
      mget_mset_ne _ _ _ _ hab]
  · simp [listConversationView, Conversation.toggleMuted,
      mget_mset_ne _ _ _ _ hab]

/-- A successful authorized conversation-read call: 200, and the stored
conversation becomes the reset-and-touched document. -/
theorem putConversationRead_success (db : DB) (cu : List (UserId × Nat))
    (u : UserId) (cid : Nat) (now : Nat) (conv : Conversation)
    (hfind : db.conversations.find? (fun c => c.id = cid) = some conv)
    (hpart : conv.participants.contains u = true) :
    (putConversationRead db cu u cid now).status = 200 ∧
    (putConversationRead db cu u cid now).db.conversations.find?
        (fun c => c.id = cid)
      = some { (conv.resetUnread u) with updatedAt := now } := by
  have hcid := List.find?_some hfind
  rw [putConversationRead.eq_def, hfind]
  simp only [hpart, not_true, if_false, Bool.not_eq_true, Bool.true_eq_false,
    if_neg, reduceIte]
  refine ⟨trivial, ?_⟩
  exact find?_map_replace db.conversations _ conv _ hfind rfl hcid

/-- C5: marking a conversation read is idempotent for the reader's unread
counter: two successive authorized calls both return 200 and both leave the
reader's counter at exactly 0 (a non-negative value). -/
theorem conversationRead_idempotent (db : DB) (cu : List (UserId × Nat))
    (u : UserId) (cid : Nat) (now now' : Nat) (conv : Conversation)
    (hfind : db.conversations.find? (fun c => c.id = cid) = some conv)
    (hpart : conv.participants.contains u = true) :
    (putConversationRead db cu u cid now).status = 200 ∧
    (∃ c₁, (putConversationRead db cu u cid now).db.conversations.find?
          (fun c => c.id = cid) = some c₁ ∧
        mget c₁.unreadCount u = some 0) ∧
    (putConversationRead (putConversationRead db cu u cid now).db cu u cid
        now').status = 200 ∧
    (∃ c₂, (putConversationRead (putConversationRead db cu u cid now).db cu
          u cid now').db.conversations.find? (fun c => c.id = cid)
            = some c₂ ∧
        mget c₂.unreadCount u = some 0) := by
  obtain ⟨hs₁, hf₁⟩ := putConversationRead_success db cu u cid now conv hfind hpart
  have hpart₁ :
      ({ (conv.resetUnread u) with updatedAt := now } : Conversation).participants.contains u = true := hpart
  obtain ⟨hs₂, hf₂⟩ := putConversationRead_success
    (putConversationRead db cu u cid now).db cu u cid now' _ hf₁ hpart₁
  refine ⟨hs₁, ⟨_, hf₁, ?_⟩, hs₂, ⟨_, hf₂, ?_⟩⟩
  · exact mget_mset_self _ _ _
  · exact mget_mset_self _ _ _

/-- Witness for C5: two reads of the fixture conversation by participant u1. -/
theorem conversationRead_idempotent_witness :
    dbFix.conversations.find? (fun c => c.id = 5) = some convFix ∧
    convFix.participants.contains "u1" = true ∧
    ((putConversationRead dbFix [] "u1" 5 9).status = 200 ∧
     (∃ c₁, (putConversationRead dbFix [] "u1" 5 9).db.conversations.find?
           (fun c => c.id = 5) = some c₁ ∧
         mget c₁.unreadCount "u1" = some 0) ∧
     (putConversationRead (putConversationRead dbFix [] "u1" 5 9).db []
         "u1" 5 11).status = 200 ∧
     (∃ c₂, (putConversationRead (putConversationRead dbFix [] "u1" 5 9).db
           [] "u1" 5 11).db.conversations.find? (fun c => c.id = 5)
             = some c₂ ∧
         mget c₂.unreadCount "u1" = some 0)) :=
  ⟨by decide, by decide,
   conversationRead_idempotent dbFix [] "u1" 5 9 11 convFix (by decide)
     (by decide)⟩

/-- Upserting a subscription leaves exactly one row for the compound key
whenever the unique-index invariant (at most one row) held before. -/
theorem subCount_save (db : DB) (u : UserId) (ep payload : String)
    (hinv : subCount db u ep ≤ 1) :
    subCount (saveSubscription db u ep payload) u ep = 1 := by
  unfold subCount at *
  unfold saveSubscription
  cases hfind : db.subscriptions.find?
      (fun s => s.user = u && s.endpoint = ep) with
  | none =>
      have hnone := List.find?_eq_none.mp hfind
      simp only [List.filter_append, List.length_append,
        List.filter_eq_nil_iff.mpr hnone]
      simp
  | some existing =>
      have hmem := List.mem_of_find?_eq_some hfind
      have hp := List.find?_some hfind
      simp only []
      rw [List.filter_map]
      rw [List.filter_congr (q := fun s =>
        decide (s.user = u) && decide (s.endpoint = ep)) ?hcong]
      case hcong =>
        intro x _
        by_cases hx : x.id = existing.id <;> simp [hx, Function.comp]
      rw [List.length_map]
      have hpos : 0 < (db.subscriptions.filter
          (fun s => decide (s.user = u) && decide (s.endpoint = ep))).length := by
        have : existing ∈ db.subscriptions.filter
            (fun s => decide (s.user = u) && decide (s.endpoint = ep)) :=
          List.mem_filter.mpr ⟨hmem, hp⟩
        exact List.length_pos.mpr (List.ne_nil_of_mem this)
      omega

/-- C6: subscribe then unsubscribe for a (user, endpoint) pair leaves zero
rows for the pair (subscribe is an upsert leaving exactly one row even when
one already existed), the first unsubscribe reports a removed row, and a
second unsubscribe through the route answers 404 "not found" without
touching the store. -/
theorem subscribe_unsubscribe_roundtrip (db : DB) (u : UserId)
    (ep payload : String) (hinv : subCount db u ep ≤ 1) :
    subCount (saveSubscription db u ep payload) u ep = 1 ∧
    (deleteSubscription (saveSubscription db u ep payload) u ep).2 = true ∧
    subCount (deleteSubscription (saveSubscription db u ep payload) u ep).1
      u ep = 0 ∧
    (deleteUnsubscribeRoute
        (deleteSubscription (saveSubscription db u ep payload) u ep).1 u
        (some ep)).status = 404 ∧
    (deleteUnsubscribeRoute
        (deleteSubscription (saveSubscription db u ep payload) u ep).1 u
        (some ep)).db.subscriptions
      = (deleteSubscription (saveSubscription db u ep payload) u ep).1.subscriptions := by
  have h1 := subCount_save db u ep payload hinv
  set db₁ := saveSubscription db u ep payload with hdb₁
  have hany : db₁.subscriptions.any
      (fun s => s.user = u && s.endpoint = ep) = true := by
    unfold subCount at h1
    have hne : db₁.subscriptions.filter
        (fun s => s.user = u && s.endpoint = ep) ≠ [] := by
      intro hnil
      rw [hnil] at h1
      simp at h1
    obtain ⟨x, hx⟩ := List.exists_mem_of_ne_nil _ hne
    obtain ⟨hxm, hxp⟩ := List.mem_filter.mp hx
    exact List.any_of_mem hxm hxp
  have hrem : (deleteSubscription db₁ u ep).2 = true := by
    simp only [deleteSubscription, hany]
  have h0 : subCount (deleteSubscription db₁ u ep).1 u ep = 0 := by
    unfold subCount at h1 ⊢
    have := filter_deleteFirst_length
      (fun s => s.user = u && s.endpoint = ep) db₁.subscriptions hany
    simp only [deleteSubscription]
    omega
  have hany₂ : (deleteSubscription db₁ u ep).1.subscriptions.any
      (fun s => s.user = u && s.endpoint = ep) = false := by
    unfold subCount at h0
    cases h : (deleteSubscription db₁ u ep).1.subscriptions.any
        (fun s => s.user = u && s.endpoint = ep) with
    | false => rfl
    | true =>
        obtain ⟨x, hxm, hxp⟩ := List.any_eq_true.mp h
        have hmemf : x ∈ (deleteSubscription db₁ u ep).1.subscriptions.filter
            (fun s => s.user = u && s.endpoint = ep) :=
          List.mem_filter.mpr ⟨hxm, hxp⟩
        rw [List.filter_eq_nil_iff.mpr ?hnil] at hmemf
        · simp at hmemf
        case hnil =>
          intro a ha
          intro hpa
          have : a ∈ (deleteSubscription db₁ u ep).1.subscriptions.filter
              (fun s => s.user = u && s.endpoint = ep) :=
            List.mem_filter.mpr ⟨ha, hpa⟩
          have hlen := List.length_pos.mpr (List.ne_nil_of_mem this)
          omega
  have hroute : deleteUnsubscribeRoute (deleteSubscription db₁ u ep).1 u
      (some ep)
      = { status := 404, db := (deleteSubscription db₁ u ep).1, trace := [] } := by
    simp only [deleteUnsubscribeRoute, deleteSubscription] at hany₂ ⊢
    rw [hany₂]
    simp only [Bool.false_eq_true, if_false, reduceIte]
    rw [deleteFirst_of_not_any _ _ hany₂]
  refine ⟨h1, hrem, h0, ?_, ?_⟩
  · rw [hroute]
  · rw [hroute]

/-- Witness for C6: round-trip on an empty store. -/
theorem subscribe_unsubscribe_roundtrip_witness :
    subCount emptyDB "u2" "https://push.example/ep1" ≤ 1 ∧
    (subCount (saveSubscription emptyDB "u2" "https://push.example/ep1" "k")
        "u2" "https://push.example/ep1" = 1 ∧
     (deleteSubscription
         (saveSubscription emptyDB "u2" "https://push.example/ep1" "k") "u2"
         "https://push.example/ep1").2 = true ∧
     subCount
       (deleteSubscription
           (saveSubscription emptyDB "u2" "https://push.example/ep1" "k")
           "u2" "https://push.example/ep1").1 "u2"
       "https://push.example/ep1" = 0 ∧
     (deleteUnsubscribeRoute
         (deleteSubscription
             (saveSubscription emptyDB "u2" "https://push.example/ep1" "k")
             "u2" "https://push.example/ep1").1 "u2"
         (some "https://push.example/ep1")).status = 404 ∧
     (deleteUnsubscribeRoute
         (deleteSubscription
             (saveSubscription emptyDB "u2" "https://push.example/ep1" "k")
             "u2" "https://push.example/ep1").1 "u2"
         (some "https://push.example/ep1")).db.subscriptions
       = (deleteSubscription
             (saveSubscription emptyDB "u2" "https://push.example/ep1" "k")
             "u2" "https://push.example/ep1").1.subscriptions) :=
  ⟨by decide,
   subscribe_unsubscribe_roundtrip emptyDB "u2" "https://push.example/ep1"
     "k" (by decide)⟩

/-- C4: push fan-out failure policy. After a push send, the stored rows are
exactly the previous rows minus those of the target user whose delivery
attempt rejected with status 404 or 410 — each row's fate depends only on
its own outcome, other failures are swallowed — and the enclosing
notification-creation operation still reports success (the created id) for
every outcome assignment. -/
theorem push_failures_isolated (db : DB) (cu : List (UserId × Nat))
    (userId : UserId) (notif : Notification) (outcome : Nat → PushOutcome)
    (recipient sender : UserId) (kind : String) (post : Option String)
    (msg : String) (hself : sender ≠ recipient) :
    (sendPushNotification db userId notif outcome).1.subscriptions
      = db.subscriptions.filter (fun s =>
          !(s.user = userId &&
            (outcome s.id = PushOutcome.err 404 ||
             outcome s.id = PushOutcome.err 410))) ∧
    (createNotification db cu recipient sender kind post msg outcome).2.2
      = some db.nextNotificationId := by
  constructor
  · by_cases hemp : (db.subscriptions.filter (fun s => s.user = userId)).isEmpty
    · simp only [sendPushNotification, hemp, if_true, reduceIte]
      have hnone : ∀ s ∈ db.subscriptions, (s.user = userId) = False := by
        intro s hs
        have := List.filter_eq_nil_iff.mp (List.isEmpty_iff.mp hemp) s hs
        simpa using this
      symm
      apply filter_eq_self_of_none
      intro s hs
      simp [hnone s hs]
    · simp only [sendPushNotification, hemp, if_false, Bool.false_eq_true,
        reduceIte]
  · simp only [createNotification, if_neg hself]
    split
    · rfl
    · rcases hsp : sendPushNotification
        { db with
            notifications := db.notifications ++
              [{ id := db.nextNotificationId, recipient := recipient
                 sender := sender, kind := kind, post := post
                 message := msg, read := false }]
            nextNotificationId := db.nextNotificationId + 1 }
        recipient
        { id := db.nextNotificationId, recipient := recipient
          sender := sender, kind := kind, post := post, message := msg
          read := false }
        outcome with ⟨d, st, res⟩
      rfl

/-- Witness for C4: a 410-gone outcome on u2's only subscription prunes the
row while notification creation still succeeds. -/
theorem push_failures_isolated_witness :
    ("u1" : UserId) ≠ "u2" ∧
    ((sendPushNotification dbPush "u2" notifFix
          (fun _ => PushOutcome.err 410)).1.subscriptions
        = dbPush.subscriptions.filter (fun s =>
            !(s.user = "u2" &&
              ((fun _ => PushOutcome.err 410) s.id = PushOutcome.err 404 ||
               (fun _ => PushOutcome.err 410) s.id = PushOutcome.err 410))) ∧
     (createNotification dbPush [] "u2" "u1" "like" (some "p1")
          "liked your post" (fun _ => PushOutcome.err 410)).2.2
        = some dbPush.nextNotificationId) :=
  ⟨by decide,
   push_failures_isolated dbPush [] "u2" notifFix
     (fun _ => PushOutcome.err 410) "u2" "u1" "like" (some "p1")
     "liked your post" (by decide)⟩

/-- C2 (amended): on the request/response channel both read-mark routes
reject a caller who is not the message's receiver (resp. not a conversation
participant) with 403 and mutate nothing. The connection-oriented
`mark_read` handler performs no such check (see the counterexample). -/
theorem httpRead_auth_enforced :
    (∀ (db : DB) (cu : List (UserId × Nat)) (u : UserId) (mid now : Nat)
        (m : Message),
       db.messages.find? (fun x => x.id = mid) = some m →
       m.receiverId ≠ u →
       putMessageRead db cu u mid now
         = { status := 403, db := db, trace := [] }) ∧
    (∀ (db : DB) (cu : List (UserId × Nat)) (u : UserId) (cid now : Nat)
        (c : Conversation),
       db.conversations.find? (fun x => x.id = cid) = some c →
       c.participants.contains u = false →
       putConversationRead db cu u cid now
         = { status := 403, db := db, trace := [] }) := by
  constructor
  · intro db cu u mid now m hfind hrecv
    rw [putMessageRead.eq_def, hfind]
    simp [hrecv]
  · intro db cu u cid now c hfind hpart
    rw [putConversationRead.eq_def, hfind]
    have : u ∉ c.participants := by simpa using hpart
    simp [this, hpart]

/-- Witness for C2's amended statement: u3 is rejected on both routes. -/
theorem httpRead_auth_enforced_witness :
    putMessageRead dbFix [] "u3" 0 9
      = { status := 403, db := dbFix, trace := [] } ∧
    putConversationRead dbFix [] "u3" 5 9
      = { status := 403, db := dbFix, trace := [] } :=
  ⟨httpRead_auth_enforced.1 dbFix [] "u3" 0 9 msgA (by decide) (by decide),
   httpRead_auth_enforced.2 dbFix [] "u3" 5 9 convFix (by decide)
     (by decide)⟩

/-- Counterexample to C2 as stated: on the connection-oriented channel a
caller (u3) who is neither the target message's receiver nor a participant
of the target conversation still flips the message's read flag and writes a
zero unread entry for itself onto the conversation — state is mutated and
nothing is rejected. -/
theorem socketRead_no_auth_counterexample :
    msgA.receiverId ≠ "u3" ∧
    convFix.participants.contains "u3" = false ∧
    (markReadHandler dbFix [] "u3" (some 0) (some 5) 9).1.messages.map
        Message.isRead = [true, false] ∧
    dbFix.messages.map Message.isRead = [false, false] ∧
    (markReadHandler dbFix [] "u3" (some 0) (some 5) 9).1.conversations.map
        (fun c => mget c.unreadCount "u3") = [some 0] ∧
    dbFix.conversations.map (fun c => mget c.unreadCount "u3") = [none] := by
  decide

/-- C3: on both send paths the persisted Message write and the Conversation
update precede every delivery attempt: each trace splits as a block of
persistence steps followed by a block of emissions, and every live
`new_message` emission names a message whose persistence step is in the
leading block. -/
theorem send_persists_before_delivery (db : DB) (cu : List (UserId × Nat))
    (userId : UserId) (receiverId : Option UserId) (content : Option String)
    (media : Option (List Media)) (now : Nat) (rid : UserId) :
    (∃ pre post,
      (sendMessageHandler db cu userId receiverId content media now).trace
        = pre ++ post ∧
      (∀ s ∈ pre, s.isPersist = true) ∧
      (∀ s ∈ post, s.isEmit = true) ∧
      (∀ d mid r, Step.emit (.newMessage d mid r) ∈ post →
          Step.persistMessage mid ∈ pre)) ∧
    (∃ pre post,
      (sendDirectMessage db cu userId rid content media now).trace
        = pre ++ post ∧
      (∀ s ∈ pre, s.isPersist = true) ∧
      (∀ s ∈ post, s.isEmit = true) ∧
      (∀ d mid r, Step.emit (.newMessage d mid r) ∈ post →
          Step.persistMessage mid ∈ pre)) := by
  constructor
  · cases receiverId with
    | none =>
        refine ⟨[], [.emit (.messageError userId "Recipient not specified")],
          ?_, ?_, ?_, ?_⟩
        · simp [sendMessageHandler]
        · simp
        · simp [Step.isEmit]
        · simp
    | some r =>
        by_cases hval : (contentBlank content && mediaAbsent media) = true
        · refine ⟨[], [.emit (.messageError userId "Message cannot be empty")],
            ?_, ?_, ?_, ?_⟩
          · simp [sendMessageHandler, hval]
          · simp
          · simp [Step.isEmit]
          · simp
        · rw [Bool.not_eq_true] at hval
          simp only [sendMessageHandler, hval, Bool.false_eq_true, if_false,
            reduceIte]
          cases hfc : findConversation db userId r with
          | none =>
              refine ⟨[.persistMessage db.nextMessageId,
                .persistConversation db.nextConversationId],
                (if mhas cu r then
                  [Step.emit (.newMessage r db.nextMessageId true),
                   Step.emit (.conversationUpdate r db.nextConversationId)]
                 else []) ++
                  [Step.emit (.messageSent userId db.nextMessageId),
                   Step.emit (.conversationUpdate userId
                     db.nextConversationId)],
                by simp, ?_, ?_, ?_⟩
              · simp [Step.isPersist]
              · by_cases hm : mhas cu r <;> simp [hm, Step.isEmit]
              · intro d mid r' hmem
                by_cases hm : mhas cu r <;> simp [hm] at hmem <;> simp [hmem]
          | some c =>
              refine ⟨[.persistMessage db.nextMessageId,
                .persistConversation c.id],
                (if mhas cu r then
                  [Step.emit (.newMessage r db.nextMessageId true),
                   Step.emit (.conversationUpdate r c.id)]
                 else []) ++
                  [Step.emit (.messageSent userId db.nextMessageId),
                   Step.emit (.conversationUpdate userId c.id)],
                by simp, ?_, ?_, ?_⟩
              · simp [Step.isPersist]
              · by_cases hm : mhas cu r <;> simp [hm, Step.isEmit]
              · intro d mid r' hmem
                by_cases hm : mhas cu r <;> simp [hm] at hmem <;> simp [hmem]
  · cases hfc : findConversation db userId rid with
    | none =>
        refine ⟨[.persistMessage db.nextMessageId,
          .persistConversation db.nextConversationId],
          (if mhas cu rid then
            [Step.emit (.newMessage rid db.nextMessageId true),
             Step.emit (.conversationUpdate rid db.nextConversationId)]
           else []),
          by simp [sendDirectMessage, hfc], ?_, ?_, ?_⟩
        · simp [Step.isPersist]
        · by_cases hm : mhas cu rid <;> simp [hm, Step.isEmit]
        · intro d mid r' hmem
          by_cases hm : mhas cu rid <;> simp [hm] at hmem <;> simp [hmem]
    | some c =>
        refine ⟨[.persistMessage db.nextMessageId,
          .persistConversation c.id],
          (if mhas cu rid then
            [Step.emit (.newMessage rid db.nextMessageId true),
             Step.emit (.conversationUpdate rid c.id)]
           else []),
          by simp [sendDirectMessage, hfc], ?_, ?_, ?_⟩
        · simp [Step.isPersist]
        · by_cases hm : mhas cu rid <;> simp [hm, Step.isEmit]
        · intro d mid r' hmem
          by_cases hm : mhas cu rid <;> simp [hm] at hmem <;> simp [hmem]

/-- C1 (amended): a valid direct-message send to an offline receiver
persists exactly one new Message, leaves the pair's conversation with the
receiver's unread counter incremented by exactly 1, emits zero live socket
events to the receiver, and makes zero push-channel invocations — on both
the socket `send_message` path and the `sendDirectMessage` path (the
message-send code has no push fallback; the push channel serves only the
social-notification fan-out). -/
theorem sendOffline_no_push (db : DB) (cu : List (UserId × Nat))
    (a b : UserId) (content : Option String) (media : Option (List Media))
    (now : Nat) (hoff : mhas cu b = false) (hab : a ≠ b)
    (hval : (contentBlank content && mediaAbsent media) = false) :
    (sendMessageHandler db cu a (some b) content media now).db.messages.length
      = db.messages.length + 1 ∧
    (∃ c', findConversation
          (sendMessageHandler db cu a (some b) content media now).db a b
        = some c' ∧
        mget c'.unreadCount b = some (pairUnread db a b + 1)) ∧
    emitsTo (sendMessageHandler db cu a (some b) content media now).trace b
      = 0 ∧
    countPushInvocations
      (sendMessageHandler db cu a (some b) content media now).trace = 0 ∧
    (sendDirectMessage db cu a b content media now).db.messages.length
      = db.messages.length + 1 ∧
    emitsTo (sendDirectMessage db cu a b content media now).trace b = 0 ∧
    countPushInvocations
      (sendDirectMessage db cu a b content media now).trace = 0 := by
  cases hfc : findConversation db a b with
  | none =>
      have hnone : db.conversations.find?
          (fun c => decide (a ∈ c.participants) && decide (b ∈ c.participants))
          = none := hfc
      simp only [sendMessageHandler, sendDirectMessage, hval,
        Bool.false_eq_true, if_false, reduceIte, hoff, findConversation,
        hnone]
      refine ⟨by simp,
        ⟨{ id := db.nextConversationId, participants := [a, b]
           lastMessage := some db.nextMessageId
           lastMessageText := lastMsgText content media
           lastMessageDate := now, unreadCount := [(b, 1)], isPinned := []
           isMuted := [], createdAt := now, updatedAt := now }, ?_, ?_⟩,
        ?_, ?_, by simp, ?_, ?_⟩
      · rw [find?_append_of_none _ _ _ hnone]
        simp [List.find?_cons]
      · show mget [(b, (1 : Int))] b = some (pairUnread db a b + 1)
        simp [pairUnread, hfc, mget, List.find?_cons]
      · simp [emitsTo, Event.socketDest, hab]
      · simp [countPushInvocations]
      · simp [emitsTo, Event.socketDest, hab]
      · simp [countPushInvocations]
  | some c =>
      have hsome : db.conversations.find?
          (fun c => decide (a ∈ c.participants) && decide (b ∈ c.participants))
          = some c := hfc
      have hp := List.find?_some hsome
      simp only [sendMessageHandler, sendDirectMessage, hval,
        Bool.false_eq_true, if_false, reduceIte, hoff, findConversation,
        hsome, storeConversation]
      refine ⟨by simp,
        ⟨{ id := c.id, participants := c.participants
           lastMessage := some db.nextMessageId
           lastMessageText := lastMsgText content media
           lastMessageDate := now
           unreadCount := mset c.unreadCount b
             (jsOrZero (mget c.unreadCount b) + 1)
           isPinned := c.isPinned, isMuted := c.isMuted
           createdAt := c.createdAt, updatedAt := now }, ?_, ?_⟩,
        ?_, ?_, by simp, ?_, ?_⟩
      · exact find?_map_replace db.conversations _ c _ hfc rfl hp
      · rw [mget_mset_self]
        simp [pairUnread, hfc]
      · simp [emitsTo, Event.socketDest, hab]
      · simp [countPushInvocations]
      · simp [emitsTo, Event.socketDest, hab]
      · simp [countPushInvocations]

/-- Witness for C1's amended statement: a media message from u1 to the
offline, push-subscribed u2. -/
theorem sendOffline_no_push_witness :
    mhas ([] : List (UserId × Nat)) "u2" = false ∧
    ("u1" : UserId) ≠ "u2" ∧
    (contentBlank none && mediaAbsent (some [mediaFix])) = false ∧
    ((sendMessageHandler dbPush [] "u1" (some "u2") none (some [mediaFix])
         7).db.messages.length = dbPush.messages.length + 1 ∧
     (∃ c', findConversation
           (sendMessageHandler dbPush [] "u1" (some "u2") none
             (some [mediaFix]) 7).db "u1" "u2"
         = some c' ∧
         mget c'.unreadCount "u2" = some (pairUnread dbPush "u1" "u2" + 1)) ∧
     emitsTo (sendMessageHandler dbPush [] "u1" (some "u2") none
         (some [mediaFix]) 7).trace "u2" = 0 ∧
     countPushInvocations (sendMessageHandler dbPush [] "u1" (some "u2")
         none (some [mediaFix]) 7).trace = 0 ∧
     (sendDirectMessage dbPush [] "u1" "u2" none (some [mediaFix])
         7).db.messages.length = dbPush.messages.length + 1 ∧
     emitsTo (sendDirectMessage dbPush [] "u1" "u2" none (some [mediaFix])
         7).trace "u2" = 0 ∧
     countPushInvocations (sendDirectMessage dbPush [] "u1" "u2" none
         (some [mediaFix]) 7).trace = 0) :=
  ⟨by decide, by decide, by decide,
   sendOffline_no_push dbPush [] "u1" "u2" none (some [mediaFix]) 7
     (by decide) (by decide) (by decide)⟩

/-- Counterexample to C1 as stated: u2 is offline and holds one push
subscription, yet the send makes zero push-channel invocations, not the
claimed exactly one. -/
theorem sendOffline_push_counterexample :
    (dbPush.subscriptions.filter (fun s => s.user = "u2")).length = 1 ∧
    mhas ([] : List (UserId × Nat)) "u2" = false ∧
    countPushInvocations (sendMessageHandler dbPush [] "u1" (some "u2")
        none (some [mediaFix]) 7).trace = 0 ∧
    countPushInvocations (sendMessageHandler dbPush [] "u1" (some "u2")
        none (some [mediaFix]) 7).trace ≠ 1 := by
  decide

/-- C9: whenever the fetched history page holds at least one unread message
addressed to the requester, the route answers 200, resets the requester's
conversation unread counter all the way to zero, flips the read flag of
exactly the on-page unread messages addressed to the requester, and leaves
every other stored message untouched (so older unread messages outside the
page keep `isRead = false` while the counter reads 0). -/
theorem fetch_resets_unread_past_page (db : DB) (cu : List (UserId × Nat))
    (u : UserId) (cid : Nat) (page limit now : Nat) (conv : Conversation)
    (hfind : db.conversations.find? (fun c => c.id = cid) = some conv)
    (hpart : conv.participants.contains u = true)
    (hunread : unreadOnPage db conv u page limit ≠ []) :
    (getMessagesHandler db cu u cid page limit now).status = 200 ∧
    (∃ c', (getMessagesHandler db cu u cid page limit now).db.conversations.find?
          (fun c => c.id = cid) = some c' ∧
        mget c'.unreadCount u = some 0) ∧
    (∀ m ∈ db.messages,
       ((unreadOnPage db conv u page limit).map Message.id).contains m.id
           = false →
       m ∈ (getMessagesHandler db cu u cid page limit now).db.messages) ∧
    (∀ m ∈ db.messages,
       ((unreadOnPage db conv u page limit).map Message.id).contains m.id
           = true →
       { m with isRead := true }
         ∈ (getMessagesHandler db cu u cid page limit now).db.messages) := by
  have hcid := List.find?_some hfind
  have hempty : (unreadOnPage db conv u page limit).isEmpty = false := by
    cases h : (unreadOnPage db conv u page limit).isEmpty with
    | false => rfl
    | true => exact absurd (List.isEmpty_iff.mp h) hunread
  rw [getMessagesHandler.eq_def, hfind]
  simp only [hpart, not_true, Bool.not_eq_true, if_neg, reduceIte, hempty,
    Bool.false_eq_true, if_false]
  refine ⟨trivial, ⟨{ (conv.resetUnread u) with updatedAt := now }, ?_, ?_⟩,
    ?_, ?_⟩
  · exact find?_map_replace db.conversations _ conv _ hfind rfl hcid
  · exact mget_mset_self _ _ _
  · intro m hm hnotin
    refine List.mem_map.mpr ⟨m, hm, ?_⟩
    rw [hnotin]
    simp
  · intro m hm hin
    refine List.mem_map.mpr ⟨m, hm, ?_⟩
    rw [hin]
    simp

/-- Witness for C9: fetching page 1 with limit 1 of the fixture
conversation flips only the newest unread message; the older one stays
unread while the counter reads 0. -/
theorem fetch_resets_unread_past_page_witness :
    dbFix.conversations.find? (fun c => c.id = 5) = some convFix ∧
    convFix.participants.contains "u1" = true ∧
    unreadOnPage dbFix convFix "u1" 1 1 ≠ [] ∧
    ((getMessagesHandler dbFix [] "u1" 5 1 1 9).status = 200 ∧
     (∃ c', (getMessagesHandler dbFix [] "u1" 5 1 1 9).db.conversations.find?
           (fun c => c.id = 5) = some c' ∧
         mget c'.unreadCount "u1" = some 0) ∧
     (∀ m ∈ dbFix.messages,
        ((unreadOnPage dbFix convFix "u1" 1 1).map Message.id).contains m.id
            = false →
        m ∈ (getMessagesHandler dbFix [] "u1" 5 1 1 9).db.messages) ∧
     (∀ m ∈ dbFix.messages,
        ((unreadOnPage dbFix convFix "u1" 1 1).map Message.id).contains m.id
            = true →
        { m with isRead := true }
          ∈ (getMessagesHandler dbFix [] "u1" 5 1 1 9).db.messages)) ∧
    msgA.isRead = false ∧
    msgA ∈ (getMessagesHandler dbFix [] "u1" 5 1 1 9).db.messages :=
  ⟨by decide, by decide, by decide,
   fetch_resets_unread_past_page dbFix [] "u1" 5 1 1 9 convFix (by decide)
     (by decide) (by decide),
   by decide,
   (fetch_resets_unread_past_page dbFix [] "u1" 5 1 1 9 convFix (by decide)
       (by decide) (by decide)).2.2.1 msgA (by decide) (by decide)⟩

theorem mget_cons_ne {α : Type} (k k' : String) (w : α)
    (tl : List (String × α)) (h : k' ≠ k) :
    mget ((k', w) :: tl) k = mget tl k := by
  simp [mget, List.find?_cons, h]

theorem mget_cons_self {α : Type} (k : String) (w : α)
    (tl : List (String × α)) : mget ((k, w) :: tl) k = some w := by
  simp [mget, List.find?_cons]

theorem mset_of_mget_none {α : Type} (m : List (String × α)) (k : String)
    (v : α) (h : mget m k = none) : mset m k v = m ++ [(k, v)] := by
  induction m with
  | nil => rfl
  | cons hd tl ih =>
      obtain ⟨k', w⟩ := hd
      by_cases hk : k' = k
      · subst hk
        rw [mget_cons_self] at h
        exact absurd h (by simp)
      · rw [mget_cons_ne _ _ _ _ hk] at h
        simp [mset, hk, ih h]

theorem mset_append_last {α : Type} (m : List (String × α)) (k : String)
    (x y : α) (h : mget m k = none) :
    mset (m ++ [(k, x)]) k y = m ++ [(k, y)] := by
  induction m with
  | nil => simp [mset]
  | cons hd tl ih =>
      obtain ⟨k', w⟩ := hd
      by_cases hk : k' = k
      · subst hk
        rw [mget_cons_self] at h
        exact absurd h (by simp)
      · rw [mget_cons_ne _ _ _ _ hk] at h
        simp [mset, hk, ih h]

theorem mdel_append_last {α : Type} (m : List (String × α)) (k : String)
    (x : α) (h : mget m k = none) : mdel (m ++ [(k, x)]) k = m := by
  induction m with
  | nil => simp [mdel]
  | cons hd tl ih =>
      obtain ⟨k', w⟩ := hd
      by_cases hk : k' = k
      · subst hk
        rw [mget_cons_self] at h
        exact absurd h (by simp)
      · rw [mget_cons_ne _ _ _ _ hk] at h
        simp [mdel, hk, ih h]

theorem mhas_false_of_mget_none {α : Type} (m : List (String × α))
    (k : String) (h : mget m k = none) : mhas m k = false := by
  unfold mget at h
  unfold mhas
  cases hf : m.find? (fun p => p.1 = k) with
  | none => rfl
  | some p => rw [hf] at h; simp at h

/-- C10: the `disconnect` handler deletes the user's registry slot
unconditionally. If user `u` registers socket `s1`, then registers `s2`
(overwriting the slot), and `s1`'s disconnect handler then fires, `u` is
reported offline and an `offline` presence broadcast is emitted even
though socket `s2` is still open. -/
theorem disconnect_drops_user_unconditionally (w : SocketWorld) (u : UserId)
    (s1 s2 : Nat) (hfresh : mget w.connectedUsers u = none)
    (hne : s1 ≠ s2) :
    mhas (onDisconnect (onConnection (onConnection w u s1).1 u s2).1 u
        s1).1.connectedUsers u = false ∧
    Step.emit (.userStatus u false)
      ∈ (onDisconnect (onConnection (onConnection w u s1).1 u s2).1 u s1).2 ∧
    s2 ∈ (onDisconnect (onConnection (onConnection w u s1).1 u s2).1 u
        s1).1.liveSockets := by
  have h1 : (onConnection w u s1).1.connectedUsers
      = w.connectedUsers ++ [(u, s1)] := by
    simp [onConnection, mset_of_mget_none _ _ _ hfresh]
  have h2 : (onConnection (onConnection w u s1).1 u s2).1.connectedUsers
      = w.connectedUsers ++ [(u, s2)] := by
    have hproj : (onConnection (onConnection w u s1).1 u s2).1.connectedUsers
        = mset (onConnection w u s1).1.connectedUsers u s2 := rfl
    rw [hproj, h1, mset_append_last _ _ _ _ hfresh]
  refine ⟨?_, ?_, ?_⟩
  · show mhas (mdel (onConnection (onConnection w u s1).1 u
        s2).1.connectedUsers u) u = false
    rw [h2, mdel_append_last _ _ _ hfresh]
    exact mhas_false_of_mget_none _ _ hfresh
  · simp [onDisconnect]
  · show s2 ∈ ((onConnection (onConnection w u s1).1 u
        s2).1.liveSockets).erase s1
    have hmem : s2 ∈ (onConnection (onConnection w u s1).1 u
        s2).1.liveSockets := by
      simp [onConnection]
    exact (List.mem_erase_of_ne (Ne.symm hne)).mpr hmem

/-- Witness for C10: a fresh world, user u1, sockets 1 and 2. -/
theorem disconnect_drops_user_unconditionally_witness :
    mget (⟨[], [], []⟩ : SocketWorld).connectedUsers "u1" = none ∧
    (1 : Nat) ≠ 2 ∧
    (mhas (onDisconnect (onConnection
          (onConnection (⟨[], [], []⟩ : SocketWorld) "u1" 1).1 "u1" 2).1
          "u1" 1).1.connectedUsers "u1" = false ∧
     Step.emit (.userStatus "u1" false)
       ∈ (onDisconnect (onConnection
           (onConnection (⟨[], [], []⟩ : SocketWorld) "u1" 1).1 "u1" 2).1
           "u1" 1).2 ∧
     2 ∈ (onDisconnect (onConnection
           (onConnection (⟨[], [], []⟩ : SocketWorld) "u1" 1).1 "u1" 2).1
           "u1" 1).1.liveSockets) :=
  ⟨by decide, by decide,
   disconnect_drops_user_unconditionally ⟨[], [], []⟩ "u1" 1 2 (by decide)
     (by decide)⟩

/-- Witness for C7 at a concrete conversation and distinct participants. -/
theorem toggle_participant_scoped_witness :
    ("u1" : UserId) ≠ "u2" ∧
    (listConversationView (convFix.togglePinned "u1") "u2"
       = listConversationView convFix "u2" ∧
     listConversationView (convFix.toggleMuted "u1") "u2"
       = listConversationView convFix "u2" ∧
     mget (convFix.togglePinned "u1").isPinned "u1"
       = some (!(jsOrFalse (mget convFix.isPinned "u1"))) ∧
     mget (convFix.toggleMuted "u1").isMuted "u1"
       = some (!(jsOrFalse (mget convFix.isMuted "u1"))) ∧
     (∀ k, ("u1" : UserId) ≠ k →
        mget (convFix.togglePinned "u1").isPinned k = mget convFix.isPinned k) ∧
     (∀ k, ("u1" : UserId) ≠ k →
        mget (convFix.toggleMuted "u1").isMuted k = mget convFix.isMuted k) ∧
     (convFix.togglePinned "u1").unreadCount = convFix.unreadCount ∧
     (convFix.togglePinned "u1").isMuted = convFix.isMuted ∧
     (convFix.toggleMuted "u1").unreadCount = convFix.unreadCount ∧
     (convFix.toggleMuted "u1").isPinned = convFix.isPinned) :=
  ⟨by decide, toggle_participant_scoped convFix "u1" "u2" (by decide)⟩

end UThread
